import Mathlib

/-!
Shallow embedding of the PID controller core and the PID lane-follower
composite controller of `src/AutonomousRacingCar/Code_part1.py`.

Real-valued program quantities are modelled as rationals.  Python fields
that can hold `None` (the optional saturation limits, the optional
`u_prev` argument of `solve`) are modelled with `Option`.  Python
exceptions (the RuntimeError raised by `PID.solve` on an uninitialized
instance, the AttributeError raised when a vehicle-state record is
missing its `v`, `p` or `u` sub-record) are modelled with `Except`.
Mutation of `self` is modelled by returning the updated record.
-/

deriving instance DecidableEq for Except

/-- Errors raised on the controller code paths. -/
inductive CtrlError where
  | runtimeError : CtrlError
  | attributeError : CtrlError
deriving DecidableEq

/-- `PIDParams`: the PID parameter bundle, with the source's default
field values. -/
structure PIDParams where
  dt : ℚ := 1/10
  Kp : ℚ := 2
  Ki : ℚ := 0
  Kd : ℚ := 0
  int_e_max : ℚ := 100
  int_e_min : ℚ := -100
  u_max : Option ℚ := none
  u_min : Option ℚ := none
  du_max : Option ℚ := none
  du_min : Option ℚ := none
  u_ref : ℚ := 0
  x_ref : ℚ := 0
deriving DecidableEq

/-- The diagnostics dictionary returned by `PID.solve`
(`info = \x7b'success': True\x7d`). -/
structure PIDInfo where
  success : Bool
deriving DecidableEq

/-- The state of a `PID` instance: the fields assigned in `PID.__init__`. -/
structure PID where
  dt : ℚ
  Kp : ℚ
  Ki : ℚ
  Kd : ℚ
  int_e_max : ℚ
  int_e_min : ℚ
  u_max : Option ℚ
  u_min : Option ℚ
  du_max : Option ℚ
  du_min : Option ℚ
  x_ref : ℚ
  u_ref : ℚ
  u_prev : Option ℚ
  e : ℚ
  de : ℚ
  ei : ℚ
  initialized : Bool
deriving DecidableEq

/-- `PID.__init__(params)`: copies the parameters, zeroes the error state
and the previous-input buffer, and marks the instance initialized.
No validation of any kind is performed. -/
def PID.init (params : PIDParams) : PID :=
  { dt := params.dt
    Kp := params.Kp
    Ki := params.Ki
    Kd := params.Kd
    int_e_max := params.int_e_max
    int_e_min := params.int_e_min
    u_max := params.u_max
    u_min := params.u_min
    du_max := params.du_max
    du_min := params.du_min
    x_ref := params.x_ref
    u_ref := params.u_ref
    u_prev := some 0
    e := 0
    de := 0
    ei := 0
    initialized := true }

/-- The "Saturate change in control action" block of `PID.solve`
(`_saturate_rel_high` when `du_max` is set, then `_saturate_rel_low`
when `du_min` is set), followed by `u = du + u_prev`. -/
def PID.rateLimitStage (c : PID) (u_prev u : ℚ) : ℚ :=
  let du := u - u_prev
  let du := match c.du_max with
    | some m => min du m
    | none => du
  let du := match c.du_min with
    | some m => max du m
    | none => du
  du + u_prev

/-- The "Saturate absolute control action" block of `PID.solve`
(`_saturate_abs_high` when `u_max` is set, then `_saturate_abs_low`
when `u_min` is set). -/
def PID.absSatStage (c : PID) (u : ℚ) : ℚ :=
  let u := match c.u_max with
    | some m => min u m
    | none => u
  match c.u_min with
  | some m => max u m
  | none => u

/-- The raw control command of `PID.solve` before any saturation:
`u = -(P_val + I_val + D_val) + u_ref`, with the error terms and the
anti-windup clamp of the integral accumulator computed as in the source. -/
def PID.rawCommand (c : PID) (x : ℚ) : ℚ :=
  let e_t := x - c.x_ref
  let de_t := (e_t - c.e) / c.dt
  let ei0 := c.ei + e_t * c.dt
  let ei_t := if ei0 > c.int_e_max then c.int_e_max
    else if ei0 < c.int_e_min then c.int_e_min
    else ei0
  let P_val := c.Kp * e_t
  let I_val := c.Ki * ei_t
  let D_val := c.Kd * de_t
  let u := -(P_val + I_val + D_val) + c.u_ref
  u

/-- The body of `PID.solve` past the initialization guard: resolves the
previous input (the `u_prev` argument if supplied, else the stored
buffer, else `0`), computes the error terms, applies anti-windup, rate
limiting and absolute saturation, commits `e, de, ei, u_prev` and
returns the saturated command with the diagnostics dictionary.
Caveat: rational division is total, while the source raises a
ZeroDivisionError at `de_t = (e_t - self.e)/self.dt` when `dt = 0`;
theorems about solve outputs therefore either carry a `0 < dt`
hypothesis or make no claim at `dt = 0`. -/
def PID.solveCore (c : PID) (x : ℚ) (u_prevArg : Option ℚ) : ℚ × PIDInfo × PID :=
  let u_prev := u_prevArg.getD (c.u_prev.getD 0)
  let e_t := x - c.x_ref
  let de_t := (e_t - c.e) / c.dt
  let ei0 := c.ei + e_t * c.dt
  let ei_t := if ei0 > c.int_e_max then c.int_e_max
    else if ei0 < c.int_e_min then c.int_e_min
    else ei0
  let P_val := c.Kp * e_t
  let I_val := c.Ki * ei_t
  let D_val := c.Kd * de_t
  let u := -(P_val + I_val + D_val) + c.u_ref
  let u := c.absSatStage (c.rateLimitStage u_prev u)
  (u, { success := true },
    { c with e := e_t, de := de_t, ei := ei_t, u_prev := some u })

/-- `PID.solve(x, u_prev)`: raises a RuntimeError when the instance is
not initialized, else runs the solve body. -/
def PID.solve (c : PID) (x : ℚ) (u_prevArg : Option ℚ) :
    Except CtrlError (ℚ × PIDInfo × PID) :=
  if c.initialized = true then Except.ok (c.solveCore x u_prevArg)
  else Except.error CtrlError.runtimeError

/-- `PID.set_x_ref`: updates the state reference and resets the error
integrator and the previous error. -/
def PID.set_x_ref (c : PID) (x_ref : ℚ) : PID :=
  { c with x_ref := x_ref, ei := 0, e := 0 }

/-- `PID.set_u_ref`: updates the input reference only. -/
def PID.set_u_ref (c : PID) (u_ref : ℚ) : PID :=
  { c with u_ref := u_ref }

/-- `PID.clear_errors`: zeroes the accumulated and differenced errors. -/
def PID.clear_errors (c : PID) : PID :=
  { c with ei := 0, de := 0 }

/-- `PID.set_params`: re-copies gains, limits and `dt` from a parameter
bundle without touching the error state. -/
def PID.set_params (c : PID) (params : PIDParams) : PID :=
  { c with
    dt := params.dt
    Kp := params.Kp
    Ki := params.Ki
    Kd := params.Kd
    int_e_max := params.int_e_max
    int_e_min := params.int_e_min
    u_max := params.u_max
    u_min := params.u_min
    du_max := params.du_max
    du_min := params.du_min }

/-- The state reached after a finite sequence of successful `solve`
calls (no `u_prev` override), one per measurement in the list. -/
def PID.runMeasurements (c : PID) (xs : List ℚ) : PID :=
  xs.foldl (fun s x => (s.solveCore x none).2.2) c

/-- Spec-side inclusive clamp of a value to the interval `[lo, hi]`. -/
def specClamp (lo hi x : ℚ) : ℚ := max lo (min x hi)

/-- Spec-side rendering of the `solve` pipeline of spec section 4.1 /
claim C1, written from the spec's step list: error `e`, derivative
`de`, integral candidate clamped to `[intErrorMin, intErrorMax]`, raw
command, per-cycle change clamped to the configured rate limits and
re-added to the resolved previous output, then clamped to the
configured absolute limits. -/
def specSolveOutput (c : PID) (x : ℚ) : ℚ :=
  let u_prev := c.u_prev.getD 0
  let e := x - c.x_ref
  let de := (e - c.e) / c.dt
  let ei := specClamp c.int_e_min c.int_e_max (c.ei + e * c.dt)
  let u := -(c.Kp * e + c.Ki * ei + c.Kd * de) + c.u_ref
  let du := u - u_prev
  let du := match c.du_max with
    | some hi => min du hi
    | none => du
  let du := match c.du_min with
    | some lo => max du lo
    | none => du
  let u := u_prev + du
  let u := match c.u_max with
    | some hi => min u hi
    | none => u
  match c.u_min with
  | some lo => max u lo
  | none => u

/-- Spec-side construction-time validation predicate of spec section 4.1:
true when the configuration should be rejected with a
ConfigurationError according to the spec. -/
def specConfigRejects (p : PIDParams) : Bool :=
  decide (p.dt ≤ 0) || decide (p.int_e_min > p.int_e_max) ||
    (p.u_min.isSome != p.u_max.isSome) || (p.du_min.isSome != p.du_max.isSome)

/-- The body linear velocity sub-record of a vehicle state (the fields
of `BodyLinearVelocity`). -/
structure BodyLinearVelocity where
  v_long : ℚ := 0
  v_tran : ℚ := 0
  v_n : ℚ := 0
deriving DecidableEq

/-- The parametric pose sub-record of a vehicle state (the fields of
`ParametricPose`). -/
structure ParametricPose where
  s : ℚ := 0
  x_tran : ℚ := 0
  n : ℚ := 0
  e_psi : ℚ := 0
deriving DecidableEq

/-- The actuation sub-record of a vehicle state (the fields of
`VehicleActuation`). -/
structure VehicleActuation where
  t : ℚ := 0
  u_a : ℚ := 0
  u_steer : ℚ := 0
deriving DecidableEq

/-- The part of `VehicleState` read or written by the lane follower:
the `v`, `p` and `u` sub-records, each of which defaults to `None` in
the source dataclass. -/
structure VehicleState where
  v : Option BodyLinearVelocity := none
  p : Option ParametricPose := none
  u : Option VehicleActuation := none
deriving DecidableEq

/-- The state of a `PIDLaneFollower` instance: the fields assigned in
its `__init__`. -/
structure PIDLaneFollower where
  dt : ℚ
  steer_pid_params : PIDParams
  speed_pid_params : PIDParams
  steer_pid : PID
  speed_pid : PID
  lat_ref : ℚ
  requires_env_state : Bool
deriving DecidableEq

/-- `PIDLaneFollower.__init__(dt, steer_pid_params, speed_pid_params)`
on the path where both parameter bundles are supplied: overwrites their
`dt`, stores them, builds the two `PID` instances, saves the lateral
reference and zeroes the steering loop's internal state reference. -/
def PIDLaneFollower.init (dt : ℚ) (steer_pid_params speed_pid_params : PIDParams) :
    PIDLaneFollower :=
  let sp := { steer_pid_params with dt := dt }
  let spd := { speed_pid_params with dt := dt }
  { dt := dt
    steer_pid_params := sp
    speed_pid_params := spd
    steer_pid := (PID.init sp).set_x_ref 0
    speed_pid := PID.init spd
    lat_ref := sp.x_ref
    requires_env_state := false }

/-- `PIDLaneFollower.reset`: reinstantiates the two `PID` controllers
from the stored parameter bundles. -/
def PIDLaneFollower.reset (c : PIDLaneFollower) : PIDLaneFollower :=
  { c with
    steer_pid := PID.init c.steer_pid_params
    speed_pid := PID.init c.speed_pid_params }

/-- `PIDLaneFollower.step(vehicle_state)`: reads the longitudinal
velocity, runs the speed loop, writes `u.u_a`, builds the weighted
steering feedback signal from the parametric pose, runs the steering
loop, writes `u.u_steer`, and returns the `[u_a, u_steer]` pair
together with the updated vehicle state and controller.  Accessing a
missing (`None`) sub-record raises an AttributeError, modelled as an
error result; the evaluation order follows the source. -/
def PIDLaneFollower.step (c : PIDLaneFollower) (vs : VehicleState) :
    Except CtrlError ((ℚ × ℚ) × VehicleState × PIDLaneFollower) :=
  match vs.v with
  | none => Except.error CtrlError.attributeError
  | some vv =>
    let v := vv.v_long
    match c.speed_pid.solve v none with
    | Except.error err => Except.error err
    | Except.ok (u_a, _, speedNext) =>
      match vs.u with
      | none => Except.error CtrlError.attributeError
      | some act =>
        let act := { act with u_a := u_a }
        let alpha : ℚ := 5
        let beta : ℚ := 1
        match vs.p with
        | none => Except.error CtrlError.attributeError
        | some pp =>
          match c.steer_pid.solve (alpha * (pp.x_tran - c.lat_ref) + beta * pp.e_psi) none with
          | Except.error err => Except.error err
          | Except.ok (u_steer, _, steerNext) =>
            let act := { act with u_steer := u_steer }
            Except.ok ((u_a, u_steer), { vs with u := some act },
              { c with speed_pid := speedNext, steer_pid := steerNext })

/-! Concrete inputs used by the counterexamples and witnesses. -/

/-- A configuration the spec says must be rejected (`dt = 0`). -/
def pBadCfg : PIDParams := { dt := 0 }

/-- A second configuration the spec says must be rejected (exactly one
of the absolute output bounds set), with a valid `dt`, so that in the
source both construction and the later `solve` calls run without any
error. -/
def pBadCfg2 : PIDParams := { dt := 1, u_max := some 1 }

/-- A valid configuration (`dt = 1`). -/
def pW3 : PIDParams := { dt := 1 }

/-- A configuration exercising every saturation feature at once. -/
def pW1 : PIDParams :=
  { dt := 1, Kp := 2, Ki := 1, Kd := 1, int_e_max := 2, int_e_min := -2,
    u_max := some 3, u_min := some (-3), du_max := some 1, du_min := some (-1),
    u_ref := 1, x_ref := 0 }

/-- PID instance for the C1 witness. -/
def cW1 : PID := PID.init pW1

/-- Pure-integrator configuration with a tight integral clamp. -/
def pW5 : PIDParams := { dt := 1, Kp := 0, Ki := 1, int_e_max := 1, int_e_min := -1 }

/-- PID instance for the C5 witness. -/
def cW5 : PID := PID.init pW5

/-- Adversarial measurement sequence for the C5 witness. -/
def xsW5 : List ℚ := [5, -7, 9]

/-- Huge-gain configuration with absolute output bounds only. -/
def pW6 : PIDParams := { dt := 1, Kp := 1000, u_max := some 1, u_min := some (-1) }

/-- PID instance for the C6 witness. -/
def cW6 : PID := PID.init pW6

/-- The result of `cW6.solve 1 none`. -/
def rW6 : ℚ × PIDInfo × PID :=
  ((-1 : ℚ), PIDInfo.mk true, { cW6 with e := 1, de := 1, ei := 1, u_prev := some (-1) })

/-- Configuration with rate bounds only. -/
def pW7 : PIDParams := { dt := 1, Kp := 0, du_max := some 1, du_min := some (-1) }

/-- PID instance for the C7 witness. -/
def cW7 : PID := PID.init pW7

/-- The result of `cW7.solve 0 none`. -/
def rW7 : ℚ × PIDInfo × PID :=
  ((0 : ℚ), PIDInfo.mk true, { cW7 with e := 0, de := 0, ei := 0, u_prev := some 0 })

/-- PID instance for the C8 witness. -/
def cW8 : PID := PID.init { dt := 1 }

/-- Rate-limited configuration on which a `u_prev` override propagates to
the next cycle through the stored output. -/
def pC10 : PIDParams := { dt := 1, Kp := 0, du_max := some 0, du_min := some 0 }

/-- Unconstrained configuration for the amended C10 claim. -/
def pA10 : PIDParams := { dt := 1, Kp := 1 }

/-- PID instance for the amended C10 witness. -/
def cA10 : PID := PID.init pA10

/-- The result of `cA10.solve 2 (some 5)`. -/
def rA10 : ℚ × PIDInfo × PID :=
  ((-2 : ℚ), PIDInfo.mk true, { cA10 with e := 2, de := 2, ei := 2, u_prev := some (-2) })

/-- Steering parameters for the C2 witness. -/
def spW2 : PIDParams := { dt := 1, Kp := 1 }

/-- Speed parameters for the C2 witness. -/
def spdW2 : PIDParams := { dt := 1, Kp := 1, x_ref := 1 }

/-- Lane follower for the C2 witness. -/
def cW2 : PIDLaneFollower := PIDLaneFollower.init 1 spW2 spdW2

/-- Well-formed vehicle state for the C2 witness. -/
def vsW2 : VehicleState :=
  { v := some (BodyLinearVelocity.mk 0 0 0), p := some (ParametricPose.mk 0 2 0 3),
    u := some (VehicleActuation.mk 0 0 0) }

/-- Lane follower for the C9 witness. -/
def cW9 : PIDLaneFollower := PIDLaneFollower.init 1 spW2 spdW2

/-- Malformed vehicle state (missing velocity record) for the C9 witness. -/
def vsW9 : VehicleState :=
  { v := none, p := some (ParametricPose.mk 0 0 0 0), u := some (VehicleActuation.mk 0 0 0) }

/-- Steering parameters with a nonzero lateral offset reference. -/
def spX4 : PIDParams := { dt := 1, Kp := 1, x_ref := 1 }

/-- Speed parameters for the C4 counterexample. -/
def spdX4 : PIDParams := { dt := 1, Kp := 1 }

/-- Lane follower for the C4 counterexample. -/
def cX4 : PIDLaneFollower := PIDLaneFollower.init 1 spX4 spdX4

/-- All-zero well-formed vehicle state for the C4 counterexample. -/
def vsX4 : VehicleState :=
  { v := some (BodyLinearVelocity.mk 0 0 0), p := some (ParametricPose.mk 0 0 0 0),
    u := some (VehicleActuation.mk 0 0 0) }

/-- Steering parameters with zero lateral offset reference. -/
def spA4 : PIDParams := { dt := 1, Kp := 1, x_ref := 0 }

/-- Speed parameters for the amended C4 witness. -/
def spdA4 : PIDParams := { dt := 1 }

/-- Lane follower for the amended C4 witness. -/
def cA4 : PIDLaneFollower := PIDLaneFollower.init 1 spA4 spdA4

/-- Vehicle state for the amended C4 witness. -/
def vsA4 : VehicleState :=
  { v := some (BodyLinearVelocity.mk 0 0 0), p := some (ParametricPose.mk 0 0 0 0),
    u := some (VehicleActuation.mk 0 0 0) }

/-! Helper lemmas. -/

/-- The source's nested-conditional clamp agrees with the spec-side
interval clamp whenever the interval is well formed. -/
theorem clampCode_eq_specClamp (lo hi x : ℚ) (h : lo ≤ hi) :
    (if x > hi then hi else if x < lo then lo else x) = specClamp lo hi x := by
  unfold specClamp
  split_ifs with h1 h2
  · rw [min_eq_right (le_of_lt h1), max_eq_right h]
  · rw [min_eq_left (not_lt.mp h1), max_eq_left (le_of_lt h2)]
  · rw [min_eq_left (not_lt.mp h1), max_eq_right (not_lt.mp h2)]

/-- On an initialized instance, `solve` succeeds with the solve body's
result. -/
theorem PID.solve_eq_ok (c : PID) (x : ℚ) (o : Option ℚ)
    (hinit : c.initialized = true) :
    c.solve x o = Except.ok (c.solveCore x o) := by
  unfold PID.solve
  rw [if_pos hinit]

/-- A successful `solve` forces the result to be the solve body's
result. -/
theorem PID.ok_of_solve (c : PID) (x : ℚ) (o : Option ℚ)
    (r : ℚ × PIDInfo × PID) (hok : c.solve x o = Except.ok r) :
    r = c.solveCore x o := by
  unfold PID.solve at hok
  by_cases hi2 : c.initialized = true
  · rw [if_pos hi2] at hok
    exact (Except.ok.inj hok).symm
  · rw [if_neg hi2] at hok
    simp at hok

/-- The integral accumulator committed by the solve body lies in the
configured interval whenever that interval is well formed. -/
theorem PID.solveCore_ei_mem (c : PID) (x : ℚ) (o : Option ℚ)
    (h : c.int_e_min ≤ c.int_e_max) :
    c.int_e_min ≤ ((c.solveCore x o).2.2).ei ∧ ((c.solveCore x o).2.2).ei ≤ c.int_e_max := by
  have hei : ((c.solveCore x o).2.2).ei =
      (if c.ei + (x - c.x_ref) * c.dt > c.int_e_max then c.int_e_max
       else if c.ei + (x - c.x_ref) * c.dt < c.int_e_min then c.int_e_min
       else c.ei + (x - c.x_ref) * c.dt) := rfl
  rw [hei]
  split_ifs with h1 h2
  · exact ⟨h, le_refl _⟩
  · exact ⟨le_refl _, h⟩
  · exact ⟨not_lt.mp h2, not_lt.mp h1⟩

/-- With both absolute bounds configured and well ordered, the absolute
saturation stage lands in the configured interval. -/
theorem PID.absSatStage_mem (c : PID) (u lo hi : ℚ) (hlo : c.u_min = some lo)
    (hhi : c.u_max = some hi) (hb : lo ≤ hi) :
    lo ≤ c.absSatStage u ∧ c.absSatStage u ≤ hi := by
  unfold PID.absSatStage
  rw [hlo, hhi]
  exact ⟨le_max_right _ _, max_le (min_le_right u hi) hb⟩

/-- With both rate bounds configured, the rate-limit stage moves the
command away from the previous output by at most the larger bound
magnitude. -/
theorem PID.rateLimitStage_bound (c : PID) (up u lo hi : ℚ)
    (hlo : c.du_min = some lo) (hhi : c.du_max = some hi) :
    abs (c.rateLimitStage up u - up) ≤ max (abs hi) (abs lo) := by
  simp only [PID.rateLimitStage, hlo, hhi]
  have h1 : max (min (u - up) hi) lo + up - up = max (min (u - up) hi) lo := by ring
  rw [h1, abs_le]
  constructor
  · have h2 : -(max (abs hi) (abs lo)) ≤ -(abs lo) := neg_le_neg (le_max_right _ _)
    exact le_trans (le_trans h2 (neg_abs_le lo)) (le_max_right _ _)
  · exact max_le (le_trans (min_le_right _ _) (le_trans (le_abs_self hi) (le_max_left _ _)))
      (le_trans (le_abs_self lo) (le_max_right _ _))

/-! Claim theorems. -/

/-- Claim C5: for a PID core whose configuration satisfies
`intErrorMin ≤ intErrorMax` and whose stored integral accumulator
starts inside `[intErrorMin, intErrorMax]`, after any finite sequence
of `solve` calls with arbitrary measurements the stored integral
accumulator stays inside `[intErrorMin, intErrorMax]`. -/
theorem pid_integral_accumulator_bounded (c : PID) (xs : List ℚ)
    (hinit : c.initialized = true)
    (hle : c.int_e_min ≤ c.int_e_max)
    (hlo : c.int_e_min ≤ c.ei) (hhi : c.ei ≤ c.int_e_max) :
    c.int_e_min ≤ (c.runMeasurements xs).ei ∧ (c.runMeasurements xs).ei ≤ c.int_e_max := by
  induction xs generalizing c with
  | nil => exact ⟨hlo, hhi⟩
  | cons x xs ih =>
    have hstep := PID.solveCore_ei_mem c x none hle
    have h1 : ((c.solveCore x none).2.2).initialized = true := hinit
    have h2 : ((c.solveCore x none).2.2).int_e_min = c.int_e_min := rfl
    have h3 : ((c.solveCore x none).2.2).int_e_max = c.int_e_max := rfl
    have hmain := ih ((c.solveCore x none).2.2) h1 (by rw [h2, h3]; exact hle)
      (by rw [h2]; exact hstep.1) (by rw [h3]; exact hstep.2)
    rw [h2, h3] at hmain
    have h4 : c.runMeasurements (x :: xs) = ((c.solveCore x none).2.2).runMeasurements xs := rfl
    rw [h4]
    exact hmain

/-- Witness for C5: a tightly clamped pure integrator driven by large
alternating measurements keeps its accumulator inside the clamp. -/
theorem pid_integral_accumulator_bounded_witness :
    cW5.int_e_min ≤ (cW5.runMeasurements xsW5).ei ∧
    (cW5.runMeasurements xsW5).ei ≤ cW5.int_e_max :=
  pid_integral_accumulator_bounded cW5 xsW5 (by decide) (by decide) (by decide) (by decide)

/-- Claim C6: with both absolute output bounds configured and
`outputMin ≤ outputMax`, any output returned by `solve` lies within
`[outputMin, outputMax]`, for every measurement, override and internal
state, regardless of gain magnitude. -/
theorem pid_output_within_absolute_bounds (c : PID) (x : ℚ) (o : Option ℚ)
    (lo hi : ℚ) (r : ℚ × PIDInfo × PID)
    (hlo : c.u_min = some lo) (hhi : c.u_max = some hi) (hb : lo ≤ hi)
    (hok : c.solve x o = Except.ok r) :
    lo ≤ r.1 ∧ r.1 ≤ hi := by
  have hr := PID.ok_of_solve c x o r hok
  have hfst : (c.solveCore x o).1 =
      c.absSatStage (c.rateLimitStage (o.getD (c.u_prev.getD 0)) (c.rawCommand x)) := rfl
  rw [hr, hfst]
  exact PID.absSatStage_mem c _ lo hi hlo hhi hb

/-- Witness for C6: a gain of 1000 saturates to the configured bound. -/
theorem pid_output_within_absolute_bounds_witness :
    (-1 : ℚ) ≤ rW6.1 ∧ rW6.1 ≤ 1 :=
  pid_output_within_absolute_bounds cW6 1 none (-1) 1 rW6 (by decide) (by decide)
    (by decide)
    (by norm_num [cW6, pW6, rW6, PID.init, PID.solve, PID.solveCore, PID.absSatStage,
      PID.rateLimitStage, min_def, max_def])

/-- Claim C7: with both rate bounds configured, the intermediate command
after rate limiting but before absolute saturation differs from the
resolved previous output by at most `max |outputRateMax| |outputRateMin|`,
and the returned output is the absolute saturation applied after (never
before) rate limiting. -/
theorem pid_rate_limit_before_saturation (c : PID) (x : ℚ) (o : Option ℚ)
    (lo hi : ℚ) (r : ℚ × PIDInfo × PID)
    (hlo : c.du_min = some lo) (hhi : c.du_max = some hi)
    (hok : c.solve x o = Except.ok r) :
    abs (c.rateLimitStage (o.getD (c.u_prev.getD 0)) (c.rawCommand x) -
        o.getD (c.u_prev.getD 0)) ≤ max (abs hi) (abs lo) ∧
    r.1 = c.absSatStage (c.rateLimitStage (o.getD (c.u_prev.getD 0)) (c.rawCommand x)) := by
  constructor
  · exact PID.rateLimitStage_bound c _ _ lo hi hlo hhi
  · have hr := PID.ok_of_solve c x o r hok
    rw [hr]
    rfl

/-- Witness for C7 on a rate-bounded configuration. -/
theorem pid_rate_limit_before_saturation_witness :
    abs (cW7.rateLimitStage ((none : Option ℚ).getD (cW7.u_prev.getD 0)) (cW7.rawCommand 0) -
        (none : Option ℚ).getD (cW7.u_prev.getD 0)) ≤ max (abs (1 : ℚ)) (abs (-1 : ℚ)) ∧
    rW7.1 = cW7.absSatStage (cW7.rateLimitStage ((none : Option ℚ).getD (cW7.u_prev.getD 0))
        (cW7.rawCommand 0)) :=
  pid_rate_limit_before_saturation cW7 0 none (-1) 1 rW7 (by decide) (by decide)
    (by norm_num [cW7, pW7, rW7, PID.init, PID.solve, PID.solveCore, PID.absSatStage,
      PID.rateLimitStage, min_def, max_def])

/-- Claim C8: `set_x_ref r` followed immediately by `solve` with
measurement `r` commits an error term of exactly zero and a derivative
term of exactly zero. -/
theorem pid_set_reference_zero_terms (c : PID) (r : ℚ)
    (hinit : c.initialized = true) (hdt : 0 < c.dt) :
    ∃ u d s, (c.set_x_ref r).solve r none = Except.ok (u, d, s) ∧ s.e = 0 ∧ s.de = 0 := by
  refine ⟨((c.set_x_ref r).solveCore r none).1, ((c.set_x_ref r).solveCore r none).2.1,
    ((c.set_x_ref r).solveCore r none).2.2, ?_, ?_, ?_⟩
  · exact PID.solve_eq_ok (c.set_x_ref r) r none hinit
  · have he : ((c.set_x_ref r).solveCore r none).2.2.e = r - r := rfl
    rw [he, sub_self]
  · have hde : ((c.set_x_ref r).solveCore r none).2.2.de = ((r - r) - 0) / c.dt := rfl
    rw [hde, sub_self]
    norm_num

/-- Witness for C8 at reference 4. -/
theorem pid_set_reference_zero_terms_witness :
    ∃ u d s, (cW8.set_x_ref 4).solve 4 none = Except.ok (u, d, s) ∧ s.e = 0 ∧ s.de = 0 :=
  pid_set_reference_zero_terms cW8 4 (by decide) (by decide)

/-- The spec-side solve pipeline computes exactly the solve body's
output when the integral clamp interval is well formed. -/
theorem specSolveOutput_eq_solveCore (c : PID) (x : ℚ)
    (h : c.int_e_min ≤ c.int_e_max) :
    specSolveOutput c x = (c.solveCore x none).1 := by
  simp only [specSolveOutput, PID.solveCore, PID.rateLimitStage, PID.absSatStage,
    Option.getD_none]
  rw [← clampCode_eq_specClamp c.int_e_min c.int_e_max (c.ei + (x - c.x_ref) * c.dt) h]
  rcases hdu1 : c.du_max with _ | m1 <;> rcases hdu2 : c.du_min with _ | m2 <;>
    rcases hu1 : c.u_max with _ | m3 <;> rcases hu2 : c.u_min with _ | m4 <;>
    simp only [] <;> ring_nf

/-- Claim C1: with no `u_prev` override, `solve` on an initialized
instance returns the value described by the spec's step list: error,
derivative, clamped integral candidate, raw command, rate-limit clamp
of the increment, then absolute clamp. -/
theorem pid_solve_matches_spec_pipeline (c : PID) (x : ℚ)
    (hinit : c.initialized = true) (hdt : 0 < c.dt)
    (hie : c.int_e_min ≤ c.int_e_max) :
    ∃ d s, c.solve x none = Except.ok (specSolveOutput c x, d, s) := by
  refine ⟨(c.solveCore x none).2.1, (c.solveCore x none).2.2, ?_⟩
  rw [PID.solve_eq_ok c x none hinit, specSolveOutput_eq_solveCore c x hie]

/-- Witness for C1 on a configuration with every limit configured. -/
theorem pid_solve_matches_spec_pipeline_witness :
    ∃ d s, cW1.solve 3 none = Except.ok (specSolveOutput cW1 3, d, s) :=
  pid_solve_matches_spec_pipeline cW1 3 (by decide) (by decide) (by decide)

/-- Claim C2: on a well-formed vehicle state, `step` runs the speed loop
on the longitudinal velocity, runs the steering loop on the signal
`5*(lateralDeviation - lateralOffsetReference) + 1*headingError`,
writes both commands into the state record's actuation fields, and
returns the pair `(accelerationCommand, steeringCommand)` in that
order. -/
theorem lane_follower_step_commands (c : PIDLaneFollower) (vs : VehicleState)
    (vv : BodyLinearVelocity) (pp : ParametricPose) (act : VehicleActuation)
    (hv : vs.v = some vv) (hp : vs.p = some pp) (hu : vs.u = some act)
    (h1 : c.speed_pid.initialized = true) (h2 : c.steer_pid.initialized = true) :
    ∃ ua da sa us ds ss,
      c.speed_pid.solve vv.v_long none = Except.ok (ua, da, sa) ∧
      c.steer_pid.solve (5 * (pp.x_tran - c.lat_ref) + 1 * pp.e_psi) none =
        Except.ok (us, ds, ss) ∧
      c.step vs = Except.ok ((ua, us),
        { vs with u := some { act with u_a := ua, u_steer := us } },
        { c with speed_pid := sa, steer_pid := ss }) := by
  have hs1 : c.speed_pid.solve vv.v_long none =
      Except.ok (c.speed_pid.solveCore vv.v_long none) :=
    PID.solve_eq_ok _ _ _ h1
  have hs2 : c.steer_pid.solve (5 * (pp.x_tran - c.lat_ref) + 1 * pp.e_psi) none =
      Except.ok (c.steer_pid.solveCore (5 * (pp.x_tran - c.lat_ref) + 1 * pp.e_psi) none) :=
    PID.solve_eq_ok _ _ _ h2
  refine ⟨(c.speed_pid.solveCore vv.v_long none).1,
    (c.speed_pid.solveCore vv.v_long none).2.1,
    (c.speed_pid.solveCore vv.v_long none).2.2,
    (c.steer_pid.solveCore (5 * (pp.x_tran - c.lat_ref) + 1 * pp.e_psi) none).1,
    (c.steer_pid.solveCore (5 * (pp.x_tran - c.lat_ref) + 1 * pp.e_psi) none).2.1,
    (c.steer_pid.solveCore (5 * (pp.x_tran - c.lat_ref) + 1 * pp.e_psi) none).2.2,
    ?_, ?_, ?_⟩
  · rw [hs1]
  · rw [hs2]
  · unfold PIDLaneFollower.step
    simp only [hv, hu, hp, hs1, hs2]

/-- Witness for C2 on a concrete controller and state. -/
theorem lane_follower_step_commands_witness :
    ∃ ua da sa us ds ss,
      cW2.speed_pid.solve (BodyLinearVelocity.mk 0 0 0).v_long none = Except.ok (ua, da, sa) ∧
      cW2.steer_pid.solve (5 * ((ParametricPose.mk 0 2 0 3).x_tran - cW2.lat_ref) +
        1 * (ParametricPose.mk 0 2 0 3).e_psi) none = Except.ok (us, ds, ss) ∧
      cW2.step vsW2 = Except.ok ((ua, us),
        { vsW2 with u := some { VehicleActuation.mk 0 0 0 with u_a := ua, u_steer := us } },
        { cW2 with speed_pid := sa, steer_pid := ss }) :=
  lane_follower_step_commands cW2 vsW2 (BodyLinearVelocity.mk 0 0 0)
    (ParametricPose.mk 0 2 0 3) (VehicleActuation.mk 0 0 0) rfl rfl rfl (by decide) (by decide)

/-- Claim C9: `step` fails on a state record missing the velocity or
pose sub-record, and also fails when the speed loop instance is not
initialized (the stand-in for an incompletely constructed
controller). -/
theorem lane_follower_step_malformed_fails (c : PIDLaneFollower) (vs : VehicleState)
    (h : vs.v = none ∨ vs.p = none ∨ c.speed_pid.initialized = false) :
    ∃ err, c.step vs = Except.error err := by
  rcases hv : vs.v with _ | vv
  · refine ⟨CtrlError.attributeError, ?_⟩
    unfold PIDLaneFollower.step
    rw [hv]
  · rcases h with h | h | h
    · rw [hv] at h
      simp at h
    · rcases hs : c.speed_pid.solve vv.v_long none with err | res
      · refine ⟨err, ?_⟩
        unfold PIDLaneFollower.step
        simp only [hv, hs]
      · obtain ⟨ua, d, sa⟩ := res
        rcases hu : vs.u with _ | act
        · refine ⟨CtrlError.attributeError, ?_⟩
          unfold PIDLaneFollower.step
          simp only [hv, hs, hu]
        · refine ⟨CtrlError.attributeError, ?_⟩
          unfold PIDLaneFollower.step
          simp only [hv, hs, hu, h]
    · have hs : c.speed_pid.solve vv.v_long none = Except.error CtrlError.runtimeError := by
        unfold PID.solve
        rw [if_neg]
        simp [h]
      refine ⟨CtrlError.runtimeError, ?_⟩
      unfold PIDLaneFollower.step
      simp only [hv, hs]

/-- Witness for C9: a state with no velocity record makes `step` fail. -/
theorem lane_follower_step_malformed_fails_witness :
    ∃ err, cW9.step vsW9 = Except.error err :=
  lane_follower_step_malformed_fails cW9 vsW9 (Or.inl rfl)

/-- Counterexample to C3: both configurations must be rejected with a
ConfigurationError according to the spec (`pBadCfg` has `dt = 0`,
`pBadCfg2` has exactly one absolute output bound set), yet in the
source construction performs no validation and completes, yielding an
initialized instance in both cases.  For `pBadCfg` nothing is claimed
about `solve`, since at `dt = 0` the source would raise a
ZeroDivisionError inside a later `solve` call; for `pBadCfg2`, whose
`dt` is valid, the solve path also genuinely succeeds in the source
(the lone `u_max` clamp is applied and `u_min` is skipped), so the
spec-rejected instance is fully usable. -/
theorem pid_construction_counterexample :
    specConfigRejects pBadCfg = true ∧ (PID.init pBadCfg).initialized = true ∧
    specConfigRejects pBadCfg2 = true ∧ (PID.init pBadCfg2).initialized = true ∧
    (PID.init pBadCfg2).solve 1 none = Except.ok ((PID.init pBadCfg2).solveCore 1 none) :=
  ⟨by decide, rfl, by decide, rfl, rfl⟩

/-- Amended C3: construction never fails — `PID.__init__` copies the
configuration unconditionally and marks the instance initialized, for
every configuration including ones the spec says must be rejected; and
under a valid configuration (`dt > 0`) the per-cycle `solve` path
raises no error and only performs arithmetic. -/
theorem pid_construction_total_amended (p : PIDParams) (x : ℚ) (o : Option ℚ) :
    (PID.init p).initialized = true ∧
    (0 < p.dt → (PID.init p).solve x o = Except.ok ((PID.init p).solveCore x o)) :=
  ⟨rfl, fun _ => PID.solve_eq_ok (PID.init p) x o rfl⟩

/-- Witness for the amended C3 on a valid configuration. -/
theorem pid_construction_total_amended_witness :
    (PID.init pW3).initialized = true ∧
    (PID.init pW3).solve 2 none = Except.ok ((PID.init pW3).solveCore 2 none) :=
  ⟨(pid_construction_total_amended pW3 2 none).1,
   (pid_construction_total_amended pW3 2 none).2 (by decide)⟩

/-- Counterexample to C4: with a steering configuration whose `x_ref`
is nonzero, `reset()` followed by `step` does not reproduce a freshly
constructed controller's `step` output, because `__init__` zeroes the
steering loop's internal reference after construction while `reset`
does not. -/
theorem lane_reset_counterexample :
    (cX4.reset).step vsX4 ≠ cX4.step vsX4 := by
  norm_num [cX4, spX4, spdX4, vsX4, PIDLaneFollower.init, PIDLaneFollower.reset,
    PIDLaneFollower.step, PID.init, PID.set_x_ref, PID.solve, PID.solveCore,
    PID.absSatStage, PID.rateLimitStage]

/-- Overwriting `dt` with its current value leaves a parameter bundle
unchanged. -/
theorem PIDParams.set_dt_eq (p : PIDParams) (d : ℚ) (h : p.dt = d) :
    { p with dt := d } = p := by
  cases p
  subst h
  rfl

/-- Zeroing the state reference of a freshly built PID whose
configuration already has `x_ref = 0` is the identity. -/
theorem PID.init_set_x_ref_zero (p : PIDParams) (h : p.x_ref = 0) :
    (PID.init p).set_x_ref 0 = PID.init p := by
  unfold PID.init PID.set_x_ref
  simp [h]

/-- Amended C4: for a controller whose stored steering configuration
has `x_ref = 0` (as every configuration shipped with the source does),
`reset()` followed by `step` is bit-identical to constructing a fresh
controller from the stored configurations and calling `step` on the
same snapshot. -/
theorem lane_reset_step_equals_fresh (c : PIDLaneFollower) (vs : VehicleState)
    (hx : c.steer_pid_params.x_ref = 0) (hl : c.lat_ref = 0)
    (hd1 : c.steer_pid_params.dt = c.dt) (hd2 : c.speed_pid_params.dt = c.dt)
    (hr : c.requires_env_state = false) :
    c.reset.step vs = (PIDLaneFollower.init c.dt c.steer_pid_params c.speed_pid_params).step vs := by
  have hc : c.reset = PIDLaneFollower.init c.dt c.steer_pid_params c.speed_pid_params := by
    simp only [PIDLaneFollower.reset, PIDLaneFollower.init]
    rw [PIDParams.set_dt_eq _ _ hd1, PIDParams.set_dt_eq _ _ hd2,
      PID.init_set_x_ref_zero _ hx]
    cases c
    simp_all
  rw [hc]

/-- Witness for the amended C4 on a concrete controller and state. -/
theorem lane_reset_step_equals_fresh_witness :
    cA4.reset.step vsA4 =
      (PIDLaneFollower.init cA4.dt cA4.steer_pid_params cA4.speed_pid_params).step vsA4 :=
  lane_reset_step_equals_fresh cA4 vsA4 (by decide) (by decide) (by decide) (by decide)
    (by decide)

/-- Counterexample to C10: on a rate-limited configuration, a `u_prev`
override changes the stored previous output and therefore changes the
result of the next call even though that next call supplies no
override. -/
theorem pid_override_counterexample :
    ((PID.init pC10).solve 0 (some 5)).bind (fun r => r.2.2.solve 0 none) ≠
    ((PID.init pC10).solve 0 none).bind (fun r => r.2.2.solve 0 none) := by
  norm_num [pC10, PID.init, PID.solve, PID.solveCore, PID.absSatStage,
    PID.rateLimitStage, Except.bind, min_def, max_def]

/-- Amended C10: after a successful `solve` the stored previous output
is exactly the returned output; the override value itself is never
stored, and when no rate limits are configured the override has no
effect at all on the call's result (and hence none on later calls) —
but with rate limits configured it can influence later calls through
the stored output. -/
theorem pid_override_not_stored_amended (c : PID) (x : ℚ) (o : Option ℚ)
    (r : ℚ × PIDInfo × PID) (hok : c.solve x o = Except.ok r) :
    r.2.2.u_prev = some r.1 ∧
    (c.du_max = none → c.du_min = none → c.solve x o = c.solve x none) := by
  constructor
  · have hr := PID.ok_of_solve c x o r hok
    rw [hr]
    rfl
  · intro hmax hmin
    have hcore : c.solveCore x o = c.solveCore x none := by
      simp only [PID.solveCore, PID.rateLimitStage, hmax, hmin, Option.getD_none]
      rw [sub_add_cancel, sub_add_cancel]
    unfold PID.solve
    rw [hcore]

/-- Witness for the amended C10 on an unconstrained configuration with
an override supplied. -/
theorem pid_override_not_stored_amended_witness :
    rA10.2.2.u_prev = some rA10.1 ∧
    (cA10.du_max = none → cA10.du_min = none →
      cA10.solve 2 (some 5) = cA10.solve 2 none) :=
  pid_override_not_stored_amended cA10 2 (some 5) rA10
    (by norm_num [cA10, pA10, rA10, PID.init, PID.solve, PID.solveCore,
      PID.absSatStage, PID.rateLimitStage])
